import Mathlib

/-!
Shallow embedding of the dataset-slicing layer of the benchmarking harness
(`src/src/utils/dataset.cpp`, namespace `dalbench`): `NumericTableFactory`,
`DataSlice`, `Dataset` and `DatasetFromCsv`, together with theorems settling
the behavioural claims about block partitioning, block copying, accessors,
clearing, fallback resolution and CSV-loading error paths.

Modelling conventions:
- `size_t` arithmetic is `Nat` arithmetic reduced modulo `W = 2^64` exactly
  where the C++ expressions can overflow or underflow.
- A `NumericTablePtr` (a reference-counted shared handle that may be null) is
  an `Option NumericTable`; storing a handle without copying is modelled by
  storing the very same value.
- A numeric table's buffer is a total function `Nat → Int` from flat row-major
  offsets to abstract element values (the external table stores machine reals;
  their values are opaque here, see the access log for the precision used).
- Fallible operations return `Except Err α`.  C++ undefined behaviour that the
  source can reach (out-of-range `std::vector::operator[]`) is marked by the
  distinguished outcome `Err.undefinedBehavior`, which is not a thrown
  exception.
-/

namespace dalbench

/-- Modulus of `size_t` arithmetic (64-bit platform). -/
def W : Nat := 2 ^ 64

/-- `size_t` subtraction `a - b` for operands already reduced below `W`:
wraps around on underflow exactly as the C++ unsigned subtraction does. -/
def sub64 (a b : Nat) : Nat := (a + (W - b)) % W

/-- Element precision with which a `BlockDescriptor` is acquired. -/
inductive Precision
  | float
  | double
deriving DecidableEq

/-- `daal::data_management::ReadWriteMode` as used by `copy_block`. -/
inductive RWMode
  | readOnly
  | writeOnly
deriving DecidableEq

/-- One `getBlockOfRows` acquisition performed by `copy_block`: its
read/write mode and the template element precision it was instantiated at. -/
structure Access where
  mode : RWMode
  prec : Precision
deriving DecidableEq

/-- The backend kinds recognised by `NumericTableFactory::create_numeric_table`
(dataset.cpp:29-39); the two `switch` cases that do not throw. -/
inductive NumericTableType
  | SyclHomogenNumericTableFloat
  | SyclHomogenNumericTableDouble
deriving DecidableEq

/-- A numeric table: row/column geometry plus a flat row-major buffer.
`ref` is the identity of the underlying allocation, letting distinct
allocations with equal contents be told apart (handle identity). -/
structure NumericTable where
  ref : Nat
  numRows : Nat
  numCols : Nat
  data : Nat → Int

/-- The element of `t` at (row `r`, column `c`): row-major flat offset
`r * numCols + c`, as assumed by `copy_block` (dataset.cpp:201-203). -/
def NumericTable.elem (t : NumericTable) (r c : Nat) : Int :=
  t.data (r * t.numCols + c)

/-- The error conditions thrown by dataset.cpp, plus the marker
`undefinedBehavior` for reachable C++ UB (out-of-range vector indexing),
which is not an exception the source throws. -/
inductive Err
  | NotAvailableNumericTable
  | EmptyNumericTable
  | CannotOpenFile (msg : String)
  | CannotReadCsv (msg : String)
  | CannotLoadDataset (msg : String)
  | undefinedBehavior
deriving DecidableEq

/-- `NumericTableFactory::create_numeric_table` (dataset.cpp:22-45): both
supported backends produce a fresh table of the requested geometry (the
model takes allocation as immediate and zero-initialised; the allocation
flag and the null-handle check never matter for the claims, since the
model never produces a null handle). -/
def create_numeric_table (numeric_table_type : NumericTableType)
    (num_features num_observations : Nat) : NumericTable :=
  match numeric_table_type with
  | NumericTableType.SyclHomogenNumericTableFloat =>
      { ref := 0, numRows := num_observations, numCols := num_features,
        data := fun _ => 0 }
  | NumericTableType.SyclHomogenNumericTableDouble =>
      { ref := 0, numRows := num_observations, numCols := num_features,
        data := fun _ => 0 }

/-- `DataSlice::copy_block` (dataset.cpp:172-209).  All index arithmetic is
`size_t`; `end_row - start_row` is the unsigned subtraction `sub64` and can
wrap around when `start_row > num_rows`.  The returned access list records
the two `getBlockOfRows` acquisitions the function performs, in order; the
source instantiates both `BlockDescriptor`s at `FPType = double`
(dataset.cpp:177) regardless of `numeric_table_type`. -/
def copy_block (numeric_table : NumericTable)
    (numeric_table_type : NumericTableType)
    (block_index block_size : Nat) : NumericTable × List Access :=
  let num_cols := numeric_table.numCols
  let num_rows := numeric_table.numRows
  let start_row := (block_index * block_size) % W
  let end_row0 := (start_row + block_size) % W
  let end_row := if end_row0 > num_rows then num_rows else end_row0
  let bd_r : Access := { mode := RWMode.readOnly, prec := Precision.double }
  let numeric_table_tmp :=
    create_numeric_table numeric_table_type num_cols (sub64 end_row start_row)
  let bd_w : Access := { mode := RWMode.writeOnly, prec := Precision.double }
  let num_elems := (num_cols * sub64 end_row start_row) % W
  let offset := (start_row * num_cols) % W
  let dest := { numeric_table_tmp with
    data := fun k =>
      if k < num_elems then numeric_table.data (offset + k)
      else numeric_table_tmp.data k }
  (dest, [bd_r, bd_w])

/-- The per-block row count chosen by `DataSlice::initialize`
(dataset.cpp:153): the source computes `std::ceil(float(num_rows) / num_blocks)`.
For `num_rows ≤ 2^24` the conversion of `num_rows` to `float` is exact and the
rounded quotient always ceils to the exact ceiling `⌈num_rows / num_blocks⌉`,
which is what this definition computes; theorems that depend on this value
carry the hypothesis `num_rows ≤ 2^24` so that they only cover the regime
where the embedding provably agrees with the single-precision source. -/
def block_size_of (num_rows num_blocks : Nat) : Nat :=
  (num_rows + num_blocks - 1) / num_blocks

/-- `DataSlice`: the ordered block handles for features and (when labeled)
labels (fields `x_blocks_`, `y_blocks_`, `labeled_`).  An unset handle is
`none` (a null `NumericTablePtr`). -/
structure DataSlice where
  x_blocks : List (Option NumericTable)
  y_blocks : List (Option NumericTable)
  labeled : Bool

/-- `DataSlice::make_empty` (dataset.cpp:78-80): the default-constructed
slice with zero blocks. -/
def DataSlice.make_empty : DataSlice :=
  { x_blocks := [], y_blocks := [], labeled := false }

/-- The block list built by `DataSlice::initialize` (dataset.cpp:141-159) for
one source table: a single shared handle when `num_blocks == 1`, otherwise
`num_blocks` copies made by `copy_block` (the loop writes every index of the
pre-sized vector exactly once, yielding this list).  `block_size` is passed
in because `initialize` computes it once from the x table and reuses it for
the y table. -/
def init_blocks (t : NumericTable) (num_blocks : Nat)
    (numeric_table_type : NumericTableType) (block_size : Nat) :
    List (Option NumericTable) :=
  if num_blocks = 1 then [some t]
  else (List.range num_blocks).map
    (fun i => some (copy_block t numeric_table_type i block_size).1)

/-- The unlabeled `DataSlice` constructor (dataset.cpp:47-53):
`x_blocks_` sized `num_blocks`, `labeled_ = false`, then `initialize` with a
null y handle, so `y_blocks_` stays empty. -/
def DataSlice.ofTable (x : NumericTable) (num_blocks : Nat)
    (numeric_table_type : NumericTableType) : DataSlice :=
  { x_blocks := init_blocks x num_blocks numeric_table_type
      (block_size_of x.numRows num_blocks),
    y_blocks := [],
    labeled := false }

/-- The labeled `DataSlice` constructor (dataset.cpp:55-63): both vectors
sized `num_blocks`, `labeled_ = true`; `initialize` splits both tables with
the block size computed from the x table's row count (dataset.cpp:152-153).
The model takes a non-null y handle (the `if (y.get())` guard is then
satisfied on every path). -/
def DataSlice.ofTables (x y : NumericTable) (num_blocks : Nat)
    (numeric_table_type : NumericTableType) : DataSlice :=
  { x_blocks := init_blocks x num_blocks numeric_table_type
      (block_size_of x.numRows num_blocks),
    y_blocks := init_blocks y num_blocks numeric_table_type
      (block_size_of x.numRows num_blocks),
    labeled := true }

/-- `DataSlice::clear` (dataset.cpp:65-72): every handle in both vectors is
`reset()` to null; the vectors themselves keep their length. -/
def DataSlice.clear (s : DataSlice) : DataSlice :=
  { x_blocks := s.x_blocks.map (fun _ => none),
    y_blocks := s.y_blocks.map (fun _ => none),
    labeled := s.labeled }

/-- `DataSlice::empty` (dataset.cpp:132-139). -/
def DataSlice.empty (s : DataSlice) : Bool :=
  if s.labeled then s.x_blocks.isEmpty || s.y_blocks.isEmpty
  else s.x_blocks.isEmpty

/-- `std::vector::operator[]`: in-range indexing returns the stored handle;
out-of-range indexing is undefined behaviour in C++ (the vectors are indexed
unchecked throughout dataset.cpp). -/
def vecGet (v : List (Option NumericTable)) (i : Nat) :
    Except Err (Option NumericTable) :=
  match v[i]? with
  | some p => Except.ok p
  | none => Except.error Err.undefinedBehavior

/-- `DataSlice::x` (dataset.cpp:82-87): throws when `x_blocks_` is empty,
otherwise returns `x_blocks_.back()` unchecked (the back handle may be null
and is returned as-is). -/
def DataSlice.x (s : DataSlice) : Except Err (Option NumericTable) :=
  if s.x_blocks.isEmpty then Except.error Err.EmptyNumericTable
  else Except.ok (s.x_blocks.getLastD none)

/-- `DataSlice::y` (dataset.cpp:89-94), symmetric to `x`. -/
def DataSlice.y (s : DataSlice) : Except Err (Option NumericTable) :=
  if s.y_blocks.isEmpty then Except.error Err.EmptyNumericTable
  else Except.ok (s.y_blocks.getLastD none)

/-- Shared body of `DataSlice::x_block` and `DataSlice::y_block`
(dataset.cpp:96-108); the two members are textually identical up to the
vector they index.  The `empty() || !v[i].get()` test short-circuits: an
empty vector throws before any indexing, while a non-empty vector is indexed
unchecked (undefined behaviour when `i` is out of range), and a null handle
at an in-range `i` throws. -/
def block_get (v : List (Option NumericTable)) (i : Nat) :
    Except Err NumericTable :=
  if v.isEmpty then Except.error Err.EmptyNumericTable
  else
    match vecGet v i with
    | Except.error e => Except.error e
    | Except.ok none => Except.error Err.EmptyNumericTable
    | Except.ok (some t) => Except.ok t

/-- `DataSlice::x_block` (dataset.cpp:96-101). -/
def DataSlice.x_block (s : DataSlice) (block_index : Nat) :
    Except Err NumericTable :=
  block_get s.x_blocks block_index

/-- `DataSlice::y_block` (dataset.cpp:103-108). -/
def DataSlice.y_block (s : DataSlice) (block_index : Nat) :
    Except Err NumericTable :=
  block_get s.y_blocks block_index

/-- Modelled from the spec: `daal::data_management::MergedNumericTable`
(an external collaborator whose implementation is not in this repository) —
"a column-wise concatenation of a feature table and a label table presented
as one logical table", features first, then the label column(s).  A null
input handle contributes no columns (its treatment by the external library
is not specified; no theorem below depends on that case). -/
def mergedNT (xo yo : Option NumericTable) : NumericTable :=
  let xt := xo.getD { ref := 0, numRows := 0, numCols := 0, data := fun _ => 0 }
  let yt := yo.getD { ref := 0, numRows := 0, numCols := 0, data := fun _ => 0 }
  { ref := 0,
    numRows := xt.numRows,
    numCols := xt.numCols + yt.numCols,
    data := fun k =>
      if xt.numCols + yt.numCols = 0 then 0
      else
        let r := k / (xt.numCols + yt.numCols)
        let c := k % (xt.numCols + yt.numCols)
        if c < xt.numCols then xt.data (r * xt.numCols + c)
        else yt.data (r * yt.numCols + (c - xt.numCols)) }

/-- `DataSlice::xy` (dataset.cpp:110-119): throws when either vector is
empty, otherwise merges the two back handles (which are passed to
`MergedNumericTable::create` unchecked, null or not). -/
def DataSlice.xy (s : DataSlice) : Except Err NumericTable :=
  if s.x_blocks.isEmpty || s.y_blocks.isEmpty then
    Except.error Err.EmptyNumericTable
  else
    Except.ok (mergedNT (s.x_blocks.getLastD none) (s.y_blocks.getLastD none))

/-- `DataSlice::xy_blocks` (dataset.cpp:121-130): both vectors are indexed
unchecked (no emptiness or range test); a null handle at an in-range index
throws, and the `||` short-circuits so a null x handle throws before the y
vector is touched. -/
def DataSlice.xy_blocks (s : DataSlice) (block_index : Nat) :
    Except Err NumericTable :=
  match vecGet s.x_blocks block_index with
  | Except.error e => Except.error e
  | Except.ok none => Except.error Err.EmptyNumericTable
  | Except.ok (some xt) =>
    match vecGet s.y_blocks block_index with
    | Except.error e => Except.error e
    | Except.ok none => Except.error Err.EmptyNumericTable
    | Except.ok (some yt) => Except.ok (mergedNT (some xt) (some yt))

/-- `Dataset` (dataset.cpp:211-331): four slices plus scalar metadata. -/
structure Dataset where
  train_slice : DataSlice
  test_slice : DataSlice
  full_slice : DataSlice
  index_slice : DataSlice
  num_features_ : Nat
  num_responses_ : Nat
  num_tries_ : Nat

/-- `Dataset::clear` (dataset.cpp:233-238): cascades `DataSlice::clear` to
all four slices. -/
def Dataset.clear (d : Dataset) : Dataset :=
  { d with
    train_slice := d.train_slice.clear,
    test_slice := d.test_slice.clear,
    full_slice := d.full_slice.clear,
    index_slice := d.index_slice.clear }

/-- `Dataset::full` (dataset.cpp:240-247). -/
def Dataset.full (d : Dataset) : Except Err DataSlice :=
  if d.full_slice.empty then Except.error Err.EmptyNumericTable
  else Except.ok d.full_slice

/-- `Dataset::train` (dataset.cpp:249-254). -/
def Dataset.train (d : Dataset) : Except Err DataSlice :=
  if d.train_slice.empty then Except.error Err.EmptyNumericTable
  else Except.ok d.train_slice

/-- `Dataset::test` (dataset.cpp:256-261). -/
def Dataset.test (d : Dataset) : Except Err DataSlice :=
  if d.test_slice.empty then Except.error Err.EmptyNumericTable
  else Except.ok d.test_slice

/-- `Dataset::index` (dataset.cpp:263-268). -/
def Dataset.index (d : Dataset) : Except Err DataSlice :=
  if d.index_slice.empty then Except.error Err.EmptyNumericTable
  else Except.ok d.index_slice

/-- `Dataset::has_full` (dataset.cpp:321-323). -/
def Dataset.has_full (d : Dataset) : Bool := !d.full_slice.empty

/-- `Dataset::has_train` (dataset.cpp:325-327). -/
def Dataset.has_train (d : Dataset) : Bool := !d.train_slice.empty

/-- `Dataset::has_test` (dataset.cpp:329-331). -/
def Dataset.has_test (d : Dataset) : Bool := !d.test_slice.empty

/-- `Dataset::full_or_train` (dataset.cpp:270-280). -/
def Dataset.full_or_train (d : Dataset) : Except Err DataSlice :=
  if d.has_full then d.full
  else if d.has_train then d.train
  else Except.error Err.EmptyNumericTable

/-- `Dataset::full_or_test` (dataset.cpp:282-292). -/
def Dataset.full_or_test (d : Dataset) : Except Err DataSlice :=
  if d.has_full then d.full
  else if d.has_test then d.test
  else Except.error Err.EmptyNumericTable

/-- `DatasetFromCsv`: the transient loader configuration (dataset.cpp:345-398);
each chainable setter writes the corresponding field. -/
structure DatasetFromCsv where
  path_to_train_ : String
  path_to_test_ : String
  path_to_full_ : String
  path_to_index_ : String
  num_features_ : Nat
  num_responses_ : Nat
  num_blocks_ : Nat
  num_tries_ : Nat
  labeled_ : Bool
  on_error_message_ : String

/-- Modelled from the spec: the filesystem and the external CSV data-source
collaborator (`FileDataSource<CSVFeatureManager>`, not in this repository).
`openable` is `can_open_file`; a successfully loaded file has `csv_num_rows`
rows and `csv_cell path row col` is the parsed value in source column `col`
of row `row`. `csv_ok` is the load status checked by
`check_data_source_status`. -/
structure Env where
  openable : String → Bool
  csv_ok : String → Bool
  csv_num_rows : String → Nat
  csv_cell : String → Nat → Nat → Int

/-- Observable side effects of the loading path, in program order: a numeric
table allocation by `NumericTableFactory`, or a CSV read of the file. -/
inductive Event
  | allocTable
  | csvRead
deriving DecidableEq

/-- Modelled from the spec: `join_sentences` is declared in the repository's
header (which is not under `src/`); per the spec the produced diagnostic
"includes the path and the configured diagnostic suffix, if any".  Modelled
as joining the given sentences with single spaces. -/
def join_sentences : List String → String
  | [] => ""
  | [s] => s
  | s :: rest => s ++ " " ++ join_sentences rest

/-- `DatasetFromCsv::load_no_response_variable` (dataset.cpp:425-438):
allocate a feature table with `num_features_` columns, load the whole CSV
into it (the data source sets the row count and the cell values), check the
status, and wrap the table into a `DataSlice` with `num_blocks_`.  The
source wraps the path of the `CannotReadCsv` message in single quotes,
omitted here. -/
def load_no_response_variable (c : DatasetFromCsv) (env : Env) (path : String)
    (numeric_table_type : NumericTableType) :
    Except Err DataSlice × List Event :=
  let x0 := create_numeric_table numeric_table_type c.num_features_ 0
  let x := { x0 with
    numRows := env.csv_num_rows path,
    data := fun k =>
      env.csv_cell path (k / c.num_features_) (k % c.num_features_) }
  if env.csv_ok path then
    (Except.ok (DataSlice.ofTable x c.num_blocks_ numeric_table_type),
     [Event.allocTable, Event.csvRead])
  else
    (Except.error (Err.CannotReadCsv ("Cannot read CSV file " ++ path)),
     [Event.allocTable, Event.csvRead])

/-- `DatasetFromCsv::load_with_response_variable` (dataset.cpp:440-461):
a zero feature count throws `CannotLoadDataset` before anything else runs;
otherwise a feature table (`num_features_` columns) and a one-column label
table are allocated, the CSV is loaded through the merged view (features
populate from source columns `0..num_features_-1`, the label from source
column `num_features_`), the status is checked, and both tables are wrapped
into a labeled `DataSlice`.  The source wraps the path of the error messages
in single quotes, omitted here. -/
def load_with_response_variable (c : DatasetFromCsv) (env : Env)
    (path : String) (numeric_table_type : NumericTableType) :
    Except Err DataSlice × List Event :=
  if c.num_features_ = 0 then
    (Except.error (Err.CannotLoadDataset
      ("Cannot load dataset " ++ path ++ " with responses. " ++
       "Number of features undefined. To load CSV dataset with " ++
       "responses FeaturesNumber must be specified.")), [])
  else
    let x0 := create_numeric_table numeric_table_type c.num_features_ 0
    let y0 := create_numeric_table numeric_table_type 1 0
    let x := { x0 with
      numRows := env.csv_num_rows path,
      data := fun k =>
        env.csv_cell path (k / c.num_features_) (k % c.num_features_) }
    let y := { y0 with
      numRows := env.csv_num_rows path,
      data := fun k => env.csv_cell path k c.num_features_ }
    if env.csv_ok path then
      (Except.ok (DataSlice.ofTables x y c.num_blocks_ numeric_table_type),
       [Event.allocTable, Event.allocTable, Event.csvRead])
    else
      (Except.error (Err.CannotReadCsv ("Cannot read CSV file " ++ path)),
       [Event.allocTable, Event.allocTable, Event.csvRead])

/-- `DatasetFromCsv::load_slice` (dataset.cpp:411-423): an unset path yields
the empty slice; a set path that cannot be opened throws `CannotOpenFile`
with the joined diagnostic; otherwise the labeled or unlabeled load runs
according to `labeled_ && num_responses_ > 0`.  The source wraps the path of
the `CannotOpenFile` message in single quotes, omitted here. -/
def load_slice (c : DatasetFromCsv) (env : Env) (path : String)
    (numeric_table_type : NumericTableType) :
    Except Err DataSlice × List Event :=
  if path = "" then (Except.ok DataSlice.make_empty, [])
  else if env.openable path = false then
    (Except.error (Err.CannotOpenFile
      (join_sentences
        ["Cannot open dataset file " ++ path, c.on_error_message_])), [])
  else if c.labeled_ && c.num_responses_ > 0 then
    load_with_response_variable c env path numeric_table_type
  else
    load_no_response_variable c env path numeric_table_type

/-- `DatasetFromCsv::load` (dataset.cpp:400-409): the four slices are loaded
in order train, test, full, index (the first failure propagates), then the
`Dataset` is built with the configured metadata. -/
def DatasetFromCsv.load (c : DatasetFromCsv) (env : Env)
    (numeric_table_type : NumericTableType) : Except Err Dataset :=
  match (load_slice c env c.path_to_train_ numeric_table_type).1 with
  | Except.error e => Except.error e
  | Except.ok train_s =>
    match (load_slice c env c.path_to_test_ numeric_table_type).1 with
    | Except.error e => Except.error e
    | Except.ok test_s =>
      match (load_slice c env c.path_to_full_ numeric_table_type).1 with
      | Except.error e => Except.error e
      | Except.ok full_s =>
        match (load_slice c env c.path_to_index_ numeric_table_type).1 with
        | Except.error e => Except.error e
        | Except.ok index_s =>
          Except.ok
            { train_slice := train_s, test_slice := test_s,
              full_slice := full_s, index_slice := index_s,
              num_features_ := c.num_features_,
              num_responses_ := c.num_responses_,
              num_tries_ := c.num_tries_ }

/-- The four dataset roles a `DatasetFromCsv` path can be configured for. -/
inductive Role
  | train
  | test
  | full
  | index
deriving DecidableEq

/-- The configured path for a role. -/
def DatasetFromCsv.path_of (c : DatasetFromCsv) (r : Role) : String :=
  match r with
  | Role.train => c.path_to_train_
  | Role.test => c.path_to_test_
  | Role.full => c.path_to_full_
  | Role.index => c.path_to_index_

/-- The raw slice field of a `Dataset` for a role. -/
def Dataset.slice_of (d : Dataset) (r : Role) : DataSlice :=
  match r with
  | Role.train => d.train_slice
  | Role.test => d.test_slice
  | Role.full => d.full_slice
  | Role.index => d.index_slice

/-- The throwing accessor of a `Dataset` for a role
(`train()`, `test()`, `full()`, `index()`). -/
def Dataset.role_slice (d : Dataset) (r : Role) : Except Err DataSlice :=
  match r with
  | Role.train => d.train
  | Role.test => d.test
  | Role.full => d.full
  | Role.index => d.index

/-- Substring containment on the character level, used to state what the
thrown diagnostics carry. -/
def strContains (hay needle : String) : Prop :=
  ∃ pre post, hay.data = pre ++ needle.data ++ post

/-- The row counts of the feature blocks of a slice, in block order; an
unpopulated (null) handle counts as zero rows. -/
def sliceXRowCounts (s : DataSlice) : List Nat :=
  s.x_blocks.map (fun ob => match ob with | some t => t.numRows | none => 0)

/-! ### Concrete fixtures used by witnesses and counterexamples -/

/-- A 2-row, 2-column table whose flat buffer holds its own offsets. -/
def tableA : NumericTable :=
  { ref := 1, numRows := 2, numCols := 2, data := fun k => Int.ofNat k }

/-- A 2-row, 1-column label table. -/
def tableB : NumericTable :=
  { ref := 2, numRows := 2, numCols := 1, data := fun k => Int.ofNat (100 + k) }

/-- A 5-row, 3-column table: splitting it into 4 blocks hits the `size_t`
underflow in `copy_block` (block 3 has `start_row = 6 > 5 = num_rows`). -/
def tableR5 : NumericTable :=
  { ref := 3, numRows := 5, numCols := 3, data := fun k => Int.ofNat k }

/-- A 10-row, 2-column table: splitting it into 3 blocks is a benign
partition (block sizes 4, 4, 2). -/
def tableR10 : NumericTable :=
  { ref := 4, numRows := 10, numCols := 2, data := fun k => Int.ofNat k }

/-- A dataset with a non-empty train slice and the other slices empty. -/
def datasetW : Dataset :=
  { train_slice :=
      DataSlice.ofTable tableA 1 NumericTableType.SyclHomogenNumericTableDouble,
    test_slice := DataSlice.make_empty,
    full_slice := DataSlice.make_empty,
    index_slice := DataSlice.make_empty,
    num_features_ := 2, num_responses_ := 0, num_tries_ := 0 }

/-! ### Helper lemmas -/

lemma isEmpty_map {α β : Type} (f : α → β) (l : List α) :
    (l.map f).isEmpty = l.isEmpty := by
  cases l <;> rfl

lemma clear_preserves_empty (s : DataSlice) : s.clear.empty = s.empty := by
  simp only [DataSlice.clear, DataSlice.empty, isEmpty_map]

lemma str_data_append (s t : String) : (s ++ t).data = s.data ++ t.data := by
  cases s; cases t; rfl

/-- The common accessor behaviour of `x_block`/`y_block`: an empty vector
throws, an in-range null handle throws, an in-range populated handle is
returned, and out-of-range indexing of a non-empty vector is undefined
behaviour. -/
lemma block_get_spec (v : List (Option NumericTable)) (i : Nat) :
    (v = [] → block_get v i = Except.error Err.EmptyNumericTable) ∧
    (v[i]? = some none → block_get v i = Except.error Err.EmptyNumericTable) ∧
    (∀ t : NumericTable, v[i]? = some (some t) → block_get v i = Except.ok t) ∧
    (v ≠ [] → v.length ≤ i →
      block_get v i = Except.error Err.undefinedBehavior) := by
  refine ⟨?_, ?_, ?_, ?_⟩
  · intro h; subst h; rfl
  · intro h
    have hne : v.isEmpty = false := by
      cases v with
      | nil => simp at h
      | cons a l => rfl
    simp [block_get, vecGet, hne, h]
  · intro t h
    have hne : v.isEmpty = false := by
      cases v with
      | nil => simp at h
      | cons a l => rfl
    simp [block_get, vecGet, hne, h]
  · intro hne hlen
    have hnone : v[i]? = none := by
      simp [List.getElem?_eq_none hlen]
    have hE : v.isEmpty = false := by
      cases v with
      | nil => exact absurd rfl hne
      | cons a l => rfl
    simp [block_get, vecGet, hE, hnone]

/-! ### Claim C3 -/

/-- C3: a `DataSlice` constructed with `num_blocks == 1` copies nothing:
`x()` and `x_block(0)` return the very input feature handle, and for the
labeled constructor `y()` and `y_block(0)` return the very input label
handle (the stored block is definitionally the input handle; `copy_block`
never runs on this path). -/
theorem single_block_shares_handles (x y : NumericTable)
    (ty : NumericTableType) :
    (DataSlice.ofTable x 1 ty).x = Except.ok (some x) ∧
    (DataSlice.ofTable x 1 ty).x_block 0 = Except.ok x ∧
    (DataSlice.ofTables x y 1 ty).x = Except.ok (some x) ∧
    (DataSlice.ofTables x y 1 ty).x_block 0 = Except.ok x ∧
    (DataSlice.ofTables x y 1 ty).y = Except.ok (some y) ∧
    (DataSlice.ofTables x y 1 ty).y_block 0 = Except.ok y :=
  ⟨rfl, rfl, rfl, rfl, rfl, rfl⟩

/-! ### Claim C10 -/

/-- C10: `copy_block` acquires both the source read block and the
destination write block with `FPType = double`, for every requested
`numeric_table_type` (in particular the access list does not depend on the
table type at all). -/
theorem copy_block_acquires_double (t : NumericTable)
    (ty ty2 : NumericTableType) (i b : Nat) :
    (copy_block t ty i b).2 =
      [{ mode := RWMode.readOnly, prec := Precision.double },
       { mode := RWMode.writeOnly, prec := Precision.double }] ∧
    (copy_block t ty i b).2 = (copy_block t ty2 i b).2 :=
  ⟨rfl, rfl⟩

/-! ### Claim C7 -/

/-- C7: `full_or_train()` returns the full slice when present, else the
train slice when present, and otherwise throws `EmptyNumericTable`;
symmetrically for `full_or_test()`. -/
theorem full_or_train_fallback (d : Dataset) :
    (d.has_full = true → d.full_or_train = Except.ok d.full_slice) ∧
    (d.has_full = false → d.has_train = true →
      d.full_or_train = Except.ok d.train_slice) ∧
    (d.has_full = false → d.has_train = false →
      d.full_or_train = Except.error Err.EmptyNumericTable) ∧
    (d.has_full = true → d.full_or_test = Except.ok d.full_slice) ∧
    (d.has_full = false → d.has_test = true →
      d.full_or_test = Except.ok d.test_slice) ∧
    (d.has_full = false → d.has_test = false →
      d.full_or_test = Except.error Err.EmptyNumericTable) := by
  refine ⟨?_, ?_, ?_, ?_, ?_, ?_⟩
  · intro h
    have hf : d.full_slice.empty = false := by simpa [Dataset.has_full] using h
    simp [Dataset.full_or_train, Dataset.full, h, hf]
  · intro h ht
    have htr : d.train_slice.empty = false := by
      simpa [Dataset.has_train] using ht
    simp [Dataset.full_or_train, Dataset.train, h, ht, htr]
  · intro h ht
    simp [Dataset.full_or_train, h, ht]
  · intro h
    have hf : d.full_slice.empty = false := by simpa [Dataset.has_full] using h
    simp [Dataset.full_or_test, Dataset.full, h, hf]
  · intro h ht
    have hte : d.test_slice.empty = false := by
      simpa [Dataset.has_test] using ht
    simp [Dataset.full_or_test, Dataset.test, h, ht, hte]
  · intro h ht
    simp [Dataset.full_or_test, h, ht]

/-- Witness for C7: on a dataset with an empty full slice and a populated
train slice, `full_or_train` returns the train slice. -/
theorem full_or_train_fallback_witness :
    datasetW.has_full = false ∧ datasetW.has_train = true ∧
    datasetW.full_or_train = Except.ok datasetW.train_slice :=
  ⟨by decide, by decide,
   (full_or_train_fallback datasetW).2.1 (by decide) (by decide)⟩

/-! ### Claim C6 -/

/-- C6 counterexample: after `Dataset::clear()`, a previously populated
train slice still reports `has_train() == true` and `train()` does not
throw — `DataSlice::clear` nulls each handle but leaves the block vectors
at their old length, so `empty()` is unchanged. -/
theorem clear_leaves_train_present :
    (datasetW.clear).has_train = true ∧
    (datasetW.clear).train ≠ Except.error Err.EmptyNumericTable := by
  refine ⟨by decide, ?_⟩
  intro h
  have h2 : (Except.ok ((datasetW.clear).train_slice) : Except Err DataSlice) =
      Except.error Err.EmptyNumericTable := h
  exact Except.noConfusion h2

/-- C6 amended: `Dataset::clear()` resets every block handle of all four
slices to null while preserving the block-vector lengths; consequently
`empty()` of each slice, and `has_full()/has_train()/has_test()`, are
unchanged rather than forced to the empty state. -/
theorem clear_nulls_handles_keeps_shape (d : Dataset) :
    (d.clear).train_slice.x_blocks = d.train_slice.x_blocks.map (fun _ => none) ∧
    (d.clear).train_slice.y_blocks = d.train_slice.y_blocks.map (fun _ => none) ∧
    (d.clear).test_slice.x_blocks = d.test_slice.x_blocks.map (fun _ => none) ∧
    (d.clear).test_slice.y_blocks = d.test_slice.y_blocks.map (fun _ => none) ∧
    (d.clear).full_slice.x_blocks = d.full_slice.x_blocks.map (fun _ => none) ∧
    (d.clear).full_slice.y_blocks = d.full_slice.y_blocks.map (fun _ => none) ∧
    (d.clear).index_slice.x_blocks = d.index_slice.x_blocks.map (fun _ => none) ∧
    (d.clear).index_slice.y_blocks = d.index_slice.y_blocks.map (fun _ => none) ∧
    (d.clear).train_slice.empty = d.train_slice.empty ∧
    (d.clear).test_slice.empty = d.test_slice.empty ∧
    (d.clear).full_slice.empty = d.full_slice.empty ∧
    (d.clear).index_slice.empty = d.index_slice.empty ∧
    (d.clear).has_full = d.has_full ∧
    (d.clear).has_train = d.has_train ∧
    (d.clear).has_test = d.has_test := by
  refine ⟨rfl, rfl, rfl, rfl, rfl, rfl, rfl, rfl, ?_, ?_, ?_, ?_, ?_, ?_, ?_⟩
  · exact clear_preserves_empty d.train_slice
  · exact clear_preserves_empty d.test_slice
  · exact clear_preserves_empty d.full_slice
  · exact clear_preserves_empty d.index_slice
  · simp [Dataset.has_full, Dataset.clear, clear_preserves_empty]
  · simp [Dataset.has_train, Dataset.clear, clear_preserves_empty]
  · simp [Dataset.has_test, Dataset.clear, clear_preserves_empty]

/-! ### Claim C4 -/

/-- C4 counterexample: `x_block(1)` on a slice whose block vector has one
(populated) entry does not throw `EmptyNumericTable` — the source only
tests `x_blocks_.empty()` and then indexes the vector unchecked, so an
out-of-range index on a non-empty vector is undefined behaviour instead of
the claimed throw. -/
theorem x_block_oob_is_not_thrown :
    (DataSlice.ofTable tableA 1
        NumericTableType.SyclHomogenNumericTableDouble).x_block 1 ≠
      Except.error Err.EmptyNumericTable := by
  intro h
  have h2 : (Except.error Err.undefinedBehavior : Except Err NumericTable) =
      Except.error Err.EmptyNumericTable := h
  exact absurd (Except.error.inj h2) (by decide)

/-- C4 amended: `x_block(i)`/`y_block(i)` throw `EmptyNumericTable` when the
block vector is empty or when the in-range block `i` is unpopulated (null),
and return block `i` when it is in range and populated; but when `i` is out
of range of a non-empty vector the unchecked `operator[]` is undefined
behaviour, not a throw. -/
theorem x_block_y_block_spec (s : DataSlice) (i : Nat) :
    (s.x_blocks = [] → s.x_block i = Except.error Err.EmptyNumericTable) ∧
    (s.x_blocks[i]? = some none →
      s.x_block i = Except.error Err.EmptyNumericTable) ∧
    (∀ t : NumericTable, s.x_blocks[i]? = some (some t) →
      s.x_block i = Except.ok t) ∧
    (s.x_blocks ≠ [] → s.x_blocks.length ≤ i →
      s.x_block i = Except.error Err.undefinedBehavior) ∧
    (s.y_blocks = [] → s.y_block i = Except.error Err.EmptyNumericTable) ∧
    (s.y_blocks[i]? = some none →
      s.y_block i = Except.error Err.EmptyNumericTable) ∧
    (∀ t : NumericTable, s.y_blocks[i]? = some (some t) →
      s.y_block i = Except.ok t) ∧
    (s.y_blocks ≠ [] → s.y_blocks.length ≤ i →
      s.y_block i = Except.error Err.undefinedBehavior) := by
  obtain ⟨hx1, hx2, hx3, hx4⟩ := block_get_spec s.x_blocks i
  obtain ⟨hy1, hy2, hy3, hy4⟩ := block_get_spec s.y_blocks i
  exact ⟨hx1, hx2, hx3, hx4, hy1, hy2, hy3, hy4⟩

/-- Witness for C4 (amended): on a one-block slice, block 0 is in range and
populated and `x_block(0)` returns it. -/
theorem x_block_y_block_spec_witness :
    (DataSlice.ofTable tableA 1
        NumericTableType.SyclHomogenNumericTableDouble).x_blocks[0]? =
      some (some tableA) ∧
    (DataSlice.ofTable tableA 1
        NumericTableType.SyclHomogenNumericTableDouble).x_block 0 =
      Except.ok tableA :=
  ⟨rfl,
   (x_block_y_block_spec
      (DataSlice.ofTable tableA 1
        NumericTableType.SyclHomogenNumericTableDouble) 0).2.2.1 tableA rfl⟩

/-! ### Claim C5 -/

/-- C5 counterexample: `xy_blocks(0)` on a slice with empty block vectors is
not the claimed `EmptyNumericTable` throw — the source indexes both vectors
unchecked, so an empty (or too short) vector is undefined behaviour. -/
theorem xy_blocks_empty_is_not_thrown :
    DataSlice.make_empty.xy_blocks 0 ≠
      Except.error Err.EmptyNumericTable := by
  intro h
  have h2 : (Except.error Err.undefinedBehavior : Except Err NumericTable) =
      Except.error Err.EmptyNumericTable := h
  exact absurd (Except.error.inj h2) (by decide)

/-- C5 amended: `xy()` throws `EmptyNumericTable` when either block vector
is empty and otherwise merges the two back blocks column-wise;
`xy_blocks(i)` performs no emptiness or range check: when `i` is in range
of both vectors it throws `EmptyNumericTable` if either handle is null and
otherwise returns the column-wise merged view of the two blocks (features
first, then the label columns), but when `i` is out of range of either
vector — in particular whenever a vector is empty — the unchecked indexing
is undefined behaviour, not a throw. -/
theorem xy_and_xy_blocks_spec (s : DataSlice) (i : Nat) :
    (s.x_blocks = [] → s.xy = Except.error Err.EmptyNumericTable) ∧
    (s.y_blocks = [] → s.xy = Except.error Err.EmptyNumericTable) ∧
    (∀ xt yt : NumericTable, s.x_blocks.getLast? = some (some xt) →
      s.y_blocks.getLast? = some (some yt) →
      s.xy = Except.ok (mergedNT (some xt) (some yt))) ∧
    (s.x_blocks[i]? = some none →
      s.xy_blocks i = Except.error Err.EmptyNumericTable) ∧
    (∀ xt : NumericTable, s.x_blocks[i]? = some (some xt) →
      s.y_blocks[i]? = some none →
      s.xy_blocks i = Except.error Err.EmptyNumericTable) ∧
    (∀ xt yt : NumericTable, s.x_blocks[i]? = some (some xt) →
      s.y_blocks[i]? = some (some yt) →
      s.xy_blocks i = Except.ok (mergedNT (some xt) (some yt))) ∧
    (s.x_blocks.length ≤ i →
      s.xy_blocks i = Except.error Err.undefinedBehavior) ∧
    (∀ xt : NumericTable, s.x_blocks[i]? = some (some xt) →
      s.y_blocks.length ≤ i →
      s.xy_blocks i = Except.error Err.undefinedBehavior) ∧
    (∀ xt yt : NumericTable,
      (mergedNT (some xt) (some yt)).numCols = xt.numCols + yt.numCols) ∧
    (∀ (xt yt : NumericTable) (r c : Nat), c < xt.numCols →
      (mergedNT (some xt) (some yt)).elem r c = xt.elem r c) ∧
    (∀ (xt yt : NumericTable) (r c : Nat), xt.numCols ≤ c →
      c < xt.numCols + yt.numCols →
      (mergedNT (some xt) (some yt)).elem r c = yt.elem r (c - xt.numCols)) := by
  refine ⟨?_, ?_, ?_, ?_, ?_, ?_, ?_, ?_, ?_, ?_, ?_⟩
  · intro h; simp [DataSlice.xy, h]
  · intro h; simp [DataSlice.xy, h]
  · intro xt yt hx hy
    have hxe : s.x_blocks.isEmpty = false := by
      cases hxl : s.x_blocks with
      | nil => rw [hxl] at hx; simp at hx
      | cons a l => rfl
    have hye : s.y_blocks.isEmpty = false := by
      cases hyl : s.y_blocks with
      | nil => rw [hyl] at hy; simp at hy
      | cons a l => rfl
    simp only [DataSlice.xy, hxe, hye, Bool.or_self, Bool.false_or,
      if_neg (by simp : ¬ (false = true))]
    rw [List.getLastD_eq_getLast?, List.getLastD_eq_getLast?, hx, hy]
    rfl
  · intro h; simp [DataSlice.xy_blocks, vecGet, h]
  · intro xt hx hy; simp [DataSlice.xy_blocks, vecGet, hx, hy]
  · intro xt yt hx hy; simp [DataSlice.xy_blocks, vecGet, hx, hy]
  · intro h
    have hnone : s.x_blocks[i]? = none := by simp [List.getElem?_eq_none h]
    simp [DataSlice.xy_blocks, vecGet, hnone]
  · intro xt hx h
    have hnone : s.y_blocks[i]? = none := by simp [List.getElem?_eq_none h]
    simp [DataSlice.xy_blocks, vecGet, hx, hnone]
  · intro xt yt; rfl
  · intro xt yt r c hc
    have hnc : xt.numCols + yt.numCols ≠ 0 := by omega
    have hclt : c < xt.numCols + yt.numCols := by omega
    simp only [mergedNT, NumericTable.elem, Option.getD_some, if_neg hnc]
    rw [show r * (xt.numCols + yt.numCols) + c = c + (xt.numCols + yt.numCols) * r
      from by ring]
    rw [Nat.add_mul_div_left c r (by omega), Nat.add_mul_mod_self_left,
      Nat.div_eq_of_lt hclt, Nat.mod_eq_of_lt hclt]
    simp [hc]
  · intro xt yt r c hc1 hc2
    have hnc : xt.numCols + yt.numCols ≠ 0 := by omega
    simp only [mergedNT, NumericTable.elem, Option.getD_some, if_neg hnc]
    rw [show r * (xt.numCols + yt.numCols) + c = c + (xt.numCols + yt.numCols) * r
      from by ring]
    rw [Nat.add_mul_div_left c r (by omega), Nat.add_mul_mod_self_left,
      Nat.div_eq_of_lt hc2, Nat.mod_eq_of_lt hc2]
    simp [Nat.not_lt.mpr hc1]

/-- Witness for C5 (amended): a labeled one-block slice merges its two
blocks into the combined view. -/
theorem xy_and_xy_blocks_spec_witness :
    (DataSlice.ofTables tableA tableB 1
        NumericTableType.SyclHomogenNumericTableDouble).x_blocks[0]? =
      some (some tableA) ∧
    (DataSlice.ofTables tableA tableB 1
        NumericTableType.SyclHomogenNumericTableDouble).y_blocks[0]? =
      some (some tableB) ∧
    (DataSlice.ofTables tableA tableB 1
        NumericTableType.SyclHomogenNumericTableDouble).xy_blocks 0 =
      Except.ok (mergedNT (some tableA) (some tableB)) :=
  ⟨rfl, rfl,
   (xy_and_xy_blocks_spec
      (DataSlice.ofTables tableA tableB 1
        NumericTableType.SyclHomogenNumericTableDouble) 0).2.2.2.2.2.1
     tableA tableB rfl rfl⟩

/-! ### Arithmetic helpers for the block-partition claims -/

lemma sub64_eq_sub (a b : Nat) (hba : b ≤ a) (ha : a < W) :
    sub64 a b = a - b := by
  unfold sub64
  have hbW : b ≤ W := le_of_lt (lt_of_le_of_lt hba ha)
  rw [show a + (W - b) = W + (a - b) from by omega, Nat.add_mod_left,
    Nat.mod_eq_of_lt (by omega)]

lemma le_mul_block_size (R n : Nat) (hn : 0 < n) :
    R ≤ n * block_size_of R n := by
  have h := Nat.div_add_mod (R + n - 1) n
  have h2 : (R + n - 1) % n < n := Nat.mod_lt _ hn
  unfold block_size_of
  generalize hm : (R + n - 1) % n = r at h h2
  generalize hgen : n * ((R + n - 1) / n) = p at h ⊢
  omega

lemma sum_map_range_of_eq (n bs : Nat) (g : Nat → Nat)
    (hg : ∀ i, i < n → g i = bs) :
    ((List.range n).map g).sum = n * bs := by
  induction n with
  | zero => simp
  | succ m ih =>
    rw [List.range_succ, List.map_append, List.sum_append,
      ih (fun i hi => hg i (by omega))]
    simp [hg m (by omega), Nat.succ_mul]

/-- The clamped end row of `copy_block`, rewritten as a `min`, in the
regime where neither `size_t` expression wraps. -/
lemma copy_block_end_min (num_rows : Nat) (i b : Nat)
    (h2 : i * b + b < W) :
    (if (i * b + b) % W > num_rows then num_rows
      else (i * b + b) % W) = min (i * b + b) num_rows := by
  have he : (i * b + b) % W = i * b + b := Nat.mod_eq_of_lt h2
  rw [he]
  by_cases hgt : i * b + b > num_rows
  · rw [if_pos hgt, min_eq_right (le_of_lt hgt)]
  · rw [if_neg hgt, min_eq_left (Nat.not_lt.mp hgt)]

/-- Row count of a block produced by `copy_block` in the non-degenerate
regime (the block's start row does not exceed the table and no `size_t`
computation wraps): `min (start + size, num_rows) - start`. -/
lemma copy_block_numRows (t : NumericTable) (ty : NumericTableType)
    (i b : Nat)
    (h1 : i * b ≤ t.numRows) (h2 : i * b + b < W) (h3 : t.numRows < W) :
    ((copy_block t ty i b).1).numRows = min (i * b + b) t.numRows - i * b := by
  have hminge : i * b ≤ min (i * b + b) t.numRows :=
    le_min (Nat.le_add_right _ _) h1
  have hminlt : min (i * b + b) t.numRows < W :=
    lt_of_le_of_lt (min_le_right _ _) h3
  have hsubeq : sub64 (min (i * b + b) t.numRows) (i * b) =
      min (i * b + b) t.numRows - i * b :=
    sub64_eq_sub _ _ hminge hminlt
  have hs : (i * b) % W = i * b := Nat.mod_eq_of_lt (lt_of_le_of_lt h1 h3)
  cases ty <;>
  · simp only [copy_block, create_numeric_table, hs]
    rw [copy_block_end_min t.numRows i b h2, hsubeq]

/-- A copied block keeps the source's column count. -/
lemma copy_block_numCols (t : NumericTable) (ty : NumericTableType)
    (i b : Nat) : ((copy_block t ty i b).1).numCols = t.numCols := by
  cases ty <;> rfl

/-- Buffer contents of a block produced by `copy_block` in the
non-degenerate regime: offset `k` of the block holds offset
`start * num_cols + k` of the source, for `k` below the copied element
count. -/
lemma copy_block_data (t : NumericTable) (ty : NumericTableType)
    (i b : Nat)
    (h1 : i * b ≤ t.numRows) (h2 : i * b + b < W) (h3 : t.numRows < W)
    (h4 : t.numRows * t.numCols < W) :
    ∀ k, k < t.numCols * (min (i * b + b) t.numRows - i * b) →
      ((copy_block t ty i b).1).data k = t.data (i * b * t.numCols + k) := by
  have hminge : i * b ≤ min (i * b + b) t.numRows :=
    le_min (Nat.le_add_right _ _) h1
  have hminlt : min (i * b + b) t.numRows < W :=
    lt_of_le_of_lt (min_le_right _ _) h3
  have hrows' : min (i * b + b) t.numRows - i * b ≤ t.numRows := by
    have := min_le_right (i * b + b) t.numRows
    omega
  have hneW : t.numCols * (min (i * b + b) t.numRows - i * b) < W := by
    have hle : t.numCols * (min (i * b + b) t.numRows - i * b) ≤
        t.numCols * t.numRows := Nat.mul_le_mul_left _ hrows'
    have hcw : t.numCols * t.numRows < W := by rw [Nat.mul_comm]; exact h4
    exact lt_of_le_of_lt hle hcw
  have hoffW : i * b * t.numCols < W := by
    have hle : i * b * t.numCols ≤ t.numRows * t.numCols :=
      Nat.mul_le_mul_right _ h1
    exact lt_of_le_of_lt hle h4
  have hsubeq : sub64 (min (i * b + b) t.numRows) (i * b) =
      min (i * b + b) t.numRows - i * b :=
    sub64_eq_sub _ _ hminge hminlt
  have hs : (i * b) % W = i * b := Nat.mod_eq_of_lt (lt_of_le_of_lt h1 h3)
  intro k hk
  cases ty <;>
  · simp only [copy_block, create_numeric_table, hs]
    rw [copy_block_end_min t.numRows i b h2, hsubeq,
      Nat.mod_eq_of_lt hneW, Nat.mod_eq_of_lt hoffW, if_pos hk]

/-! ### Claim C1 -/

/-- C1 counterexample: splitting a 5-row table into 4 blocks does not give
`ceil(5/4) = 2` rows to every non-last block, and the row counts do not sum
to 5 — block 2 already exhausts the rows with 1 row, and block 3's
`end_row - start_row` underflows in `size_t` to `2^64 - 1` because
`start_row = 6` exceeds the table's 5 rows. -/
theorem multi_block_partition_cex :
    (sliceXRowCounts (DataSlice.ofTable tableR5 4
        NumericTableType.SyclHomogenNumericTableDouble)).sum ≠
      tableR5.numRows ∧
    (sliceXRowCounts (DataSlice.ofTable tableR5 4
        NumericTableType.SyclHomogenNumericTableDouble)).getD 2 0 ≠
      block_size_of tableR5.numRows 4 ∧
    (sliceXRowCounts (DataSlice.ofTable tableR5 4
        NumericTableType.SyclHomogenNumericTableDouble)).getD 3 0 =
      2 ^ 64 - 1 := by
  refine ⟨by decide, by decide, by decide⟩

/-- C1 amended: for `num_blocks > 1`, provided
`(num_blocks - 1) * ceil(num_rows / num_blocks) ≤ num_rows` (so that no
block's `start_row` exceeds the table and the `size_t` subtraction cannot
underflow) and `num_rows ≤ 2^24` (so that the source's single-precision
ceiling equals the exact ceiling), the construction yields `num_blocks`
blocks in which every block but the last has exactly
`ceil(num_rows / num_blocks)` rows, the last block has the non-negative
remainder, and the row counts sum to `num_rows`. -/
theorem multi_block_partition (x : NumericTable) (ty : NumericTableType)
    (nb : Nat) (hnb : 1 < nb) (hR : x.numRows ≤ 2 ^ 24)
    (hfit : (nb - 1) * block_size_of x.numRows nb ≤ x.numRows) :
    (sliceXRowCounts (DataSlice.ofTable x nb ty)).length = nb ∧
    (∀ i, i + 1 < nb →
      (sliceXRowCounts (DataSlice.ofTable x nb ty)).getD i 0 =
        block_size_of x.numRows nb) ∧
    (sliceXRowCounts (DataSlice.ofTable x nb ty)).getD (nb - 1) 0 =
      x.numRows - (nb - 1) * block_size_of x.numRows nb ∧
    (sliceXRowCounts (DataSlice.ofTable x nb ty)).sum = x.numRows := by
  have hW : W = 18446744073709551616 := by norm_num [W]
  have h24 : (2 : Nat) ^ 24 = 16777216 := by norm_num
  rw [h24] at hR
  set R := x.numRows with hRdef
  set bs := block_size_of R nb with hbs
  have hne : ¬ (nb = 1) := by omega
  have hcounts : sliceXRowCounts (DataSlice.ofTable x nb ty) =
      (List.range nb).map (fun i => ((copy_block x ty i bs).1).numRows) := by
    simp only [sliceXRowCounts, DataSlice.ofTable, init_blocks, if_neg hne,
      List.map_map]
    rfl
  have hbsle : bs ≤ (nb - 1) * bs := Nat.le_mul_of_pos_left bs (by omega)
  have hbsR : bs ≤ R := le_trans hbsle hfit
  have hrows : ∀ i, i < nb →
      ((copy_block x ty i bs).1).numRows = min (i * bs + bs) R - i * bs := by
    intro i hi
    have hib : i * bs ≤ R := by
      have h5 := Nat.mul_le_mul_right bs (show i ≤ nb - 1 by omega)
      omega
    exact copy_block_numRows x ty i bs hib (by omega) (by omega)
  have hmid : ∀ i, i + 1 < nb →
      ((copy_block x ty i bs).1).numRows = bs := by
    intro i hi
    rw [hrows i (by omega)]
    have h6 : i * bs + bs ≤ R := by
      have h7 : (i + 1) * bs ≤ (nb - 1) * bs :=
        Nat.mul_le_mul_right bs (by omega)
      have h8 : (i + 1) * bs = i * bs + bs := Nat.succ_mul i bs
      omega
    rw [min_eq_left h6]
    omega
  have hlast : ((copy_block x ty (nb - 1) bs).1).numRows =
      R - (nb - 1) * bs := by
    rw [hrows (nb - 1) (by omega)]
    have h9 : R ≤ (nb - 1) * bs + bs := by
      have h10 := le_mul_block_size R nb (by omega)
      rw [← hbs] at h10
      have h11 : nb * bs = (nb - 1) * bs + bs := by
        obtain ⟨m2, hm2⟩ : ∃ m2, nb = m2 + 1 := ⟨nb - 1, by omega⟩
        subst hm2
        simp [Nat.succ_mul]
      omega
    rw [min_eq_right h9]
  have hgetD : ∀ i, i < nb →
      (sliceXRowCounts (DataSlice.ofTable x nb ty)).getD i 0 =
        ((copy_block x ty i bs).1).numRows := by
    intro i hi
    rw [hcounts, List.getD_eq_getElem?_getD, List.getElem?_map,
      List.getElem?_range hi]
    rfl
  refine ⟨?_, ?_, ?_, ?_⟩
  · rw [hcounts]; simp
  · intro i hi
    rw [hgetD i (by omega), hmid i hi]
  · rw [hgetD (nb - 1) (by omega), hlast]
  · rw [hcounts]
    obtain ⟨m, rfl⟩ : ∃ m, nb = m + 1 := ⟨nb - 1, by omega⟩
    rw [List.range_succ, List.map_append, List.sum_append,
      sum_map_range_of_eq m bs _ (fun i hi => hmid i (by omega))]
    have hm : m + 1 - 1 = m := by omega
    rw [hm] at hlast hfit
    simp only [List.map_cons, List.map_nil, List.sum_cons, List.sum_nil,
      hlast]
    omega

/-- Witness for C1 (amended): a 10-row table split into 3 blocks satisfies
the partition property (block sizes 4, 4, 2 summing to 10). -/
theorem multi_block_partition_witness :
    1 < 3 ∧ tableR10.numRows ≤ 2 ^ 24 ∧
    (3 - 1) * block_size_of tableR10.numRows 3 ≤ tableR10.numRows ∧
    (sliceXRowCounts (DataSlice.ofTable tableR10 3
        NumericTableType.SyclHomogenNumericTableDouble)).sum =
      tableR10.numRows :=
  ⟨by decide, by norm_num [tableR10], by decide,
   (multi_block_partition tableR10
      NumericTableType.SyclHomogenNumericTableDouble 3 (by decide)
      (by norm_num [tableR10]) (by decide)).2.2.2⟩

/-! ### Claim C2 -/

/-- C2: reading a copied block back yields the source's values: within the
copied range, element `(row, col)` of the block produced by
`copy_block(table, type, i, b)` equals element `(i*b + row, col)` of the
source table (row-major offset `row * num_cols + col`), for any table —
the same function materialises both feature and label blocks.  The
hypotheses delimit the copied range and the regime in which the `size_t`
index arithmetic of the source does not wrap (the table's buffer is
addressable and the block start lies inside the table). -/
theorem copy_block_roundtrip (t : NumericTable) (ty : NumericTableType)
    (i b r c : Nat)
    (hstart : i * b ≤ t.numRows) (hend : i * b + b < W)
    (hR : t.numRows < W) (hbuf : t.numRows * t.numCols < W)
    (hr : r < ((copy_block t ty i b).1).numRows) (hc : c < t.numCols) :
    ((copy_block t ty i b).1).elem r c = t.elem (i * b + r) c := by
  have hrows := copy_block_numRows t ty i b hstart hend hR
  have hcols := copy_block_numCols t ty i b
  rw [hrows] at hr
  have hk : r * t.numCols + c <
      t.numCols * (min (i * b + b) t.numRows - i * b) := by
    have h0 : 0 < t.numCols := by omega
    calc r * t.numCols + c < r * t.numCols + t.numCols := by omega
      _ = (r + 1) * t.numCols := by ring
      _ ≤ (min (i * b + b) t.numRows - i * b) * t.numCols :=
        Nat.mul_le_mul_right _ (by omega)
      _ = t.numCols * (min (i * b + b) t.numRows - i * b) := by ring
  have hdata := copy_block_data t ty i b hstart hend hR hbuf
    (r * t.numCols + c) hk
  simp only [NumericTable.elem, hcols]
  rw [hdata]
  congr 1
  ring

/-- Witness for C2: block 1 of size 1 of the 2x2 fixture holds the source's
second row. -/
theorem copy_block_roundtrip_witness :
    1 * 1 ≤ tableA.numRows ∧ 1 * 1 + 1 < W ∧ tableA.numRows < W ∧
    tableA.numRows * tableA.numCols < W ∧
    0 < ((copy_block tableA NumericTableType.SyclHomogenNumericTableDouble
        1 1).1).numRows ∧ 1 < tableA.numCols ∧
    ((copy_block tableA NumericTableType.SyclHomogenNumericTableDouble
        1 1).1).elem 0 1 = tableA.elem (1 * 1 + 0) 1 :=
  ⟨by decide, by decide, by decide, by decide, by decide, by decide,
   copy_block_roundtrip tableA NumericTableType.SyclHomogenNumericTableDouble
     1 1 0 1 (by decide) (by decide) (by decide) (by decide) (by decide)
     (by decide)⟩

/-! ### Claim C8 -/

/-- If `load` succeeds, each role's slice in the produced dataset is the
slice loaded from that role's configured path. -/
lemma load_ok_slice_of (c : DatasetFromCsv) (env : Env)
    (ty : NumericTableType) (ds : Dataset)
    (h : DatasetFromCsv.load c env ty = Except.ok ds) (r : Role) :
    (load_slice c env (c.path_of r) ty).1 = Except.ok (ds.slice_of r) := by
  unfold DatasetFromCsv.load at h
  split at h
  next e htr => exact Except.noConfusion h
  next tr htr =>
    split at h
    next e hte => exact Except.noConfusion h
    next te hte =>
      split at h
      next e hfu => exact Except.noConfusion h
      next fu hfu =>
        split at h
        next e hin => exact Except.noConfusion h
        next ins hin =>
          have hds := Except.ok.inj h
          cases r with
          | train =>
            simpa [DatasetFromCsv.path_of, Dataset.slice_of, ← hds] using htr
          | test =>
            simpa [DatasetFromCsv.path_of, Dataset.slice_of, ← hds] using hte
          | full =>
            simpa [DatasetFromCsv.path_of, Dataset.slice_of, ← hds] using hfu
          | index =>
            simpa [DatasetFromCsv.path_of, Dataset.slice_of, ← hds] using hin

/-- C8: for every role, a path left unset yields an empty slice, so on a
successful `load` the dataset's accessor for that role throws
`EmptyNumericTable`; a set path that is not openable makes `load_slice`
throw `CannotOpenFile` with a message that contains the literal configured
path and the configured diagnostic suffix. -/
theorem load_missing_paths (c : DatasetFromCsv) (env : Env)
    (ty : NumericTableType) (r : Role) :
    (∀ ds : Dataset, DatasetFromCsv.load c env ty = Except.ok ds →
      c.path_of r = "" →
      ds.role_slice r = Except.error Err.EmptyNumericTable) ∧
    (c.path_of r ≠ "" → env.openable (c.path_of r) = false →
      (load_slice c env (c.path_of r) ty).1 =
        Except.error (Err.CannotOpenFile
          (join_sentences
            ["Cannot open dataset file " ++ c.path_of r,
             c.on_error_message_])) ∧
      strContains
        (join_sentences
          ["Cannot open dataset file " ++ c.path_of r, c.on_error_message_])
        (c.path_of r) ∧
      strContains
        (join_sentences
          ["Cannot open dataset file " ++ c.path_of r, c.on_error_message_])
        c.on_error_message_) := by
  constructor
  · intro ds hload hpath
    have h1 := load_ok_slice_of c env ty ds hload r
    rw [hpath] at h1
    have h2 : (load_slice c env "" ty).1 = Except.ok DataSlice.make_empty :=
      rfl
    rw [h2] at h1
    have h3 := Except.ok.inj h1
    cases r with
    | train =>
      simp only [Dataset.slice_of] at h3
      simp [Dataset.role_slice, Dataset.train, ← h3, DataSlice.make_empty,
        DataSlice.empty]
    | test =>
      simp only [Dataset.slice_of] at h3
      simp [Dataset.role_slice, Dataset.test, ← h3, DataSlice.make_empty,
        DataSlice.empty]
    | full =>
      simp only [Dataset.slice_of] at h3
      simp [Dataset.role_slice, Dataset.full, ← h3, DataSlice.make_empty,
        DataSlice.empty]
    | index =>
      simp only [Dataset.slice_of] at h3
      simp [Dataset.role_slice, Dataset.index, ← h3, DataSlice.make_empty,
        DataSlice.empty]
  · intro hne hop
    refine ⟨?_, ?_, ?_⟩
    · simp only [load_slice, if_neg hne, if_pos hop]
    · refine ⟨("Cannot open dataset file ").data,
        (" " ++ c.on_error_message_).data, ?_⟩
      rw [show join_sentences
          ["Cannot open dataset file " ++ c.path_of r, c.on_error_message_] =
          ("Cannot open dataset file " ++ c.path_of r) ++ " " ++
            c.on_error_message_ from rfl]
      simp [str_data_append, List.append_assoc]
    · refine ⟨(("Cannot open dataset file " ++ c.path_of r) ++ " ").data,
        [], ?_⟩
      rw [show join_sentences
          ["Cannot open dataset file " ++ c.path_of r, c.on_error_message_] =
          ("Cannot open dataset file " ++ c.path_of r) ++ " " ++
            c.on_error_message_ from rfl]
      simp [str_data_append]

/-- A loader configuration with only the test path set, pointing at a file
that does not exist. -/
def configC8 : DatasetFromCsv :=
  { path_to_train_ := "", path_to_test_ := "missing.csv",
    path_to_full_ := "", path_to_index_ := "",
    num_features_ := 3, num_responses_ := 1, num_blocks_ := 1,
    num_tries_ := 1, labeled_ := true,
    on_error_message_ := "check the workload root" }

/-- A filesystem on which no path is openable. -/
def envClosed : Env :=
  { openable := fun _ => false, csv_ok := fun _ => false,
    csv_num_rows := fun _ => 0, csv_cell := fun _ _ _ => 0 }

/-- Witness for C8: loading the unopenable "missing.csv" throws
`CannotOpenFile` with the path and the configured suffix in the message. -/
theorem load_missing_paths_witness :
    configC8.path_of Role.test ≠ "" ∧
    envClosed.openable (configC8.path_of Role.test) = false ∧
    ((load_slice configC8 envClosed (configC8.path_of Role.test)
        NumericTableType.SyclHomogenNumericTableDouble).1 =
      Except.error (Err.CannotOpenFile
        (join_sentences
          ["Cannot open dataset file " ++ configC8.path_of Role.test,
           configC8.on_error_message_])) ∧
      strContains
        (join_sentences
          ["Cannot open dataset file " ++ configC8.path_of Role.test,
           configC8.on_error_message_])
        (configC8.path_of Role.test) ∧
      strContains
        (join_sentences
          ["Cannot open dataset file " ++ configC8.path_of Role.test,
           configC8.on_error_message_])
        configC8.on_error_message_) :=
  ⟨by decide, by decide,
   (load_missing_paths configC8 envClosed
      NumericTableType.SyclHomogenNumericTableDouble Role.test).2
     (by decide) (by decide)⟩

/-! ### Claim C9 -/

/-- C9: a labeled load (`labeled_` set, `num_responses > 0`) of a
configured, openable path with `num_features == 0` throws
`CannotLoadDataset` (whose message names the path) with an empty effect
trace: no table is allocated and no CSV data is read before the throw. -/
theorem labeled_load_requires_features (c : DatasetFromCsv) (env : Env)
    (path : String) (ty : NumericTableType)
    (hl : c.labeled_ = true) (hr : 0 < c.num_responses_)
    (hp : path ≠ "") (ho : env.openable path = true)
    (hf : c.num_features_ = 0) :
    ∃ msg, strContains msg path ∧
      load_slice c env path ty =
        (Except.error (Err.CannotLoadDataset msg), []) := by
  refine ⟨"Cannot load dataset " ++ path ++ " with responses. " ++
    "Number of features undefined. To load CSV dataset with " ++
    "responses FeaturesNumber must be specified.", ?_, ?_⟩
  · refine ⟨("Cannot load dataset ").data,
      (" with responses. " ++
        ("Number of features undefined. To load CSV dataset with " ++
          "responses FeaturesNumber must be specified.")).data, ?_⟩
    simp [str_data_append, List.append_assoc]
  · have ho' : ¬ (env.openable path = false) := by simp [ho]
    have hcond : (c.labeled_ && decide (c.num_responses_ > 0)) = true := by
      rw [hl]
      simpa using hr
    simp only [load_slice, if_neg hp, if_neg ho', hcond, if_pos,
      load_with_response_variable, if_pos hf]

/-- A labeled loader configuration with a zero feature count. -/
def configC9 : DatasetFromCsv :=
  { path_to_train_ := "data.csv", path_to_test_ := "",
    path_to_full_ := "", path_to_index_ := "",
    num_features_ := 0, num_responses_ := 1, num_blocks_ := 1,
    num_tries_ := 1, labeled_ := true, on_error_message_ := "" }

/-- A filesystem on which every path is openable and parses. -/
def envOpen : Env :=
  { openable := fun _ => true, csv_ok := fun _ => true,
    csv_num_rows := fun _ => 4,
    csv_cell := fun _ r c => Int.ofNat (10 * r + c) }

/-- Witness for C9: the labeled zero-feature load of "data.csv" throws
`CannotLoadDataset` before any allocation or read. -/
theorem labeled_load_requires_features_witness :
    configC9.labeled_ = true ∧ 0 < configC9.num_responses_ ∧
    ("data.csv" : String) ≠ "" ∧ envOpen.openable "data.csv" = true ∧
    configC9.num_features_ = 0 ∧
    (∃ msg, strContains msg "data.csv" ∧
      load_slice configC9 envOpen "data.csv"
          NumericTableType.SyclHomogenNumericTableDouble =
        (Except.error (Err.CannotLoadDataset msg), [])) :=
  ⟨rfl, by decide, by decide, rfl, rfl,
   labeled_load_requires_features configC9 envOpen "data.csv"
     NumericTableType.SyclHomogenNumericTableDouble rfl (by decide)
     (by decide) rfl rfl⟩

end dalbench
